import Mathlib

/-!
Verification of the growth-chart data hook
(`src/charts/growth-chart.resource.ts`, function `useGrowthData`).

The hook is embedded shallowly:
* FHIR resources become structures whose optional fields are `Option`s,
  mirroring the optional fields of `fhir.Observation` that the code reads.
* JavaScript numbers are modelled as `Int` (truthiness of a number is
  being nonzero; truthiness of a string is being nonempty).
* `new Date(s).toLocaleDateString()` is environment dependent (locale and
  time zone), so it is abstracted as a parameter `formatDate : String → String`.
* The SWR fetch-and-cache collaborator is abstracted as a function from the
  cache key (`Option String`, `none` being the suppression sentinel) to the
  triple it returns (`data`, `error`, `isLoading`).  The base URL constant
  `fhirBaseUrl` imported from the host framework is likewise a parameter.
-/

namespace GrowthChart

/-- One entry of `code.coding` in a FHIR observation: `{ code?: string }`. -/
structure Coding where
  code : Option String
  deriving Repr, DecidableEq

/-- The `code` field of a FHIR observation: `{ coding?: Coding[] }`. -/
structure CodeableConcept where
  coding : Option (List Coding)
  deriving Repr, DecidableEq

/-- The `valueQuantity` field: `{ value?: number, unit?: string }`. -/
structure Quantity where
  value : Option Int
  unit : Option String
  deriving Repr, DecidableEq

/-- The parts of a `fhir.Observation` that `useGrowthData` reads. -/
structure Observation where
  effectiveDateTime : Option String
  valueQuantity : Option Quantity
  code : Option CodeableConcept
  deriving Repr, DecidableEq

/-- One element of the response's `data` array: `{ resource: Observation }`. -/
structure Entry where
  resource : Observation
  deriving Repr, DecidableEq

/-- A measurement pushed onto `growthData.height` or `growthData.weight`. -/
structure Measurement where
  date : String
  value : Int
  unit : String
  deriving Repr, DecidableEq

/-- The value of `growthData` returned by the hook. -/
structure GrowthSeries where
  height : List Measurement
  weight : List Measurement
  deriving Repr, DecidableEq

/-- The initial `growthData` value: `{ height: [], weight: [] }`. -/
def emptySeries : GrowthSeries := ⟨[], []⟩

/-- The payload handed back by `openmrsFetch`:
`{ data: Array<{ resource: Observation }> }`, where the inner `data` array may
be absent at runtime (the code guards it with `data.data?.forEach`). -/
structure FetchPayload where
  data : Option (List Entry)
  deriving Repr, DecidableEq

/-- What `useSWR` returns: `{ data, error, isLoading }`. -/
structure SWRState (ε : Type) where
  data : Option FetchPayload
  error : Option ε
  isLoading : Bool
  deriving Repr, DecidableEq

/-- What `useGrowthData` returns: `{ growthData, isLoading, error }`. -/
structure HookResult (ε : Type) where
  growthData : GrowthSeries
  isLoading : Bool
  error : Option ε
  deriving Repr, DecidableEq

/-- Line 33: `` `${fhirBaseUrl}/Observation?patient=${patientUuid}&code=height,weight` ``. -/
def apiUrl (fhirBaseUrl patientUuid : String) : String :=
  fhirBaseUrl ++ "/Observation?patient=" ++ patientUuid ++ "&code=height,weight"

/-- Line 35: the key passed to `useSWR`, `patientUuid ? apiUrl : null`.
A JavaScript string is truthy exactly when it is nonempty. -/
def swrKey (fhirBaseUrl patientUuid : String) : Option String :=
  if patientUuid ≠ "" then some (apiUrl fhirBaseUrl patientUuid) else none

/-- JavaScript `String.prototype.toLowerCase`, restricted to the ASCII range
(the category codes in play are ASCII).  Defined on the character list so
that it evaluates by kernel reduction. -/
def jsToLowerCase (s : String) : String := ⟨s.data.map Char.toLower⟩

/-- Line 59: `resource?.code?.coding?.[0]?.code?.toLowerCase()`.
Each `?.` is an `Option.bind`; `[0]` is `List.head?`. -/
def getCode (r : Observation) : Option String :=
  (((r.code.bind CodeableConcept.coding).bind List.head?).bind Coding.code).map
    jsToLowerCase

/-- Lines 47–56: destructure `effectiveDateTime` and `valueQuantity`, test
`effectiveDateTime && valueQuantity?.value && valueQuantity.unit` (JavaScript
truthiness: a present nonempty date string, a present nonzero value, a present
nonempty unit), and build the measurement object when the test passes. -/
def obsMeasurement? (formatDate : String → String) (r : Observation) :
    Option Measurement :=
  match r.effectiveDateTime, r.valueQuantity with
  | some dt, some vq =>
    match vq.value, vq.unit with
    | some v, some u =>
      if dt ≠ "" ∧ v ≠ 0 ∧ u ≠ "" then some ⟨formatDate dt, v, u⟩ else none
    | _, _ => none
  | _, _ => none

/-- Lines 46–65: the body of the `forEach` callback for one entry — build the
measurement if the entry is valid, then push it onto `height` when the
lowercased first coding code is `"height"`, onto `weight` when it is
`"weight"`, and onto neither otherwise. -/
def processResource (formatDate : String → String) (gd : GrowthSeries)
    (e : Entry) : GrowthSeries :=
  match obsMeasurement? formatDate e.resource with
  | some m =>
    let code := getCode e.resource
    if code = some "height" then { gd with height := gd.height ++ [m] }
    else if code = some "weight" then { gd with weight := gd.weight ++ [m] }
    else gd
  | none => gd

/-- Lines 40–66: start from `{ height: [], weight: [] }` and run the
`forEach` over the entries in order. -/
def processEntries (formatDate : String → String) (entries : List Entry) :
    GrowthSeries :=
  entries.foldl (processResource formatDate) emptySeries

/-- Lines 32–73: the whole hook.  It asks the SWR collaborator for the state
at key `swrKey`, derives `growthData` from `data` (lines 40–66: empty when
`data` is absent or its inner `data` array is absent), and returns
`{ growthData, isLoading, error }` with `isLoading` and `error` passed
through from SWR unchanged. -/
def useGrowthData {ε : Type} (fhirBaseUrl : String)
    (formatDate : String → String) (swr : Option String → SWRState ε)
    (patientUuid : String) : HookResult ε :=
  let st := swr (swrKey fhirBaseUrl patientUuid)
  let growthData :=
    match st.data with
    | some payload =>
      match payload.data with
      | some entries => processEntries formatDate entries
      | none => emptySeries
    | none => emptySeries
  ⟨growthData, st.isLoading, st.error⟩

/-- Characterisation helper: the measurement an entry contributes to the
height sequence, if any (valid entry whose lowercased first code is
`"height"`). -/
def heightOf? (formatDate : String → String) (e : Entry) : Option Measurement :=
  match obsMeasurement? formatDate e.resource with
  | some m => if getCode e.resource = some "height" then some m else none
  | none => none

/-- Characterisation helper: the measurement an entry contributes to the
weight sequence, if any. -/
def weightOf? (formatDate : String → String) (e : Entry) : Option Measurement :=
  match obsMeasurement? formatDate e.resource with
  | some m => if getCode e.resource = some "weight" then some m else none
  | none => none

/-- One `forEach` step appends at most one measurement to each sequence,
as described by `heightOf?` and `weightOf?`. -/
theorem processResource_eq (formatDate : String → String) (gd : GrowthSeries)
    (e : Entry) :
    processResource formatDate gd e =
      ⟨gd.height ++ (heightOf? formatDate e).toList,
       gd.weight ++ (weightOf? formatDate e).toList⟩ := by
  unfold processResource heightOf? weightOf?
  cases hm : obsMeasurement? formatDate e.resource with
  | none => simp
  | some m =>
    by_cases hh : getCode e.resource = some "height"
    · simp [hh]
    · by_cases hw : getCode e.resource = some "weight"
      · simp [hh, hw]
      · simp [hh, hw]

/-- Folding the `forEach` from an arbitrary accumulator appends the
contributed measurements, in entry order, to each sequence. -/
theorem foldl_processResource (formatDate : String → String)
    (entries : List Entry) (gd : GrowthSeries) :
    entries.foldl (processResource formatDate) gd =
      ⟨gd.height ++ entries.filterMap (heightOf? formatDate),
       gd.weight ++ entries.filterMap (weightOf? formatDate)⟩ := by
  induction entries generalizing gd with
  | nil => simp
  | cons e es ih =>
    rw [List.foldl_cons, processResource_eq, ih]
    cases hh : heightOf? formatDate e <;> cases hw : weightOf? formatDate e <;>
      simp [List.filterMap_cons, hh, hw]

/-- C1: for the falsy patient id (the empty string — the only falsy value of
the `string` parameter type), the key handed to the SWR collaborator is the
`null` sentinel, and — given the collaborator's contract that a `null` key
suppresses the fetch and yields no data, no error and `isLoading = false` —
the hook returns `growthData = { height: [], weight: [] }`,
`isLoading = false` and `error = null`. -/
theorem useGrowthData_falsy_patientId {ε : Type} (fhirBaseUrl : String)
    (formatDate : String → String) (swr : Option String → SWRState ε)
    (hswr : swr none = ⟨none, none, false⟩) :
    swrKey fhirBaseUrl "" = none ∧
    useGrowthData fhirBaseUrl formatDate swr "" =
      ⟨emptySeries, false, none⟩ := by
  constructor
  · simp [swrKey]
  · simp [useGrowthData, swrKey, hswr]

/-- Witness for C1 at a concrete collaborator and base URL. -/
theorem useGrowthData_falsy_patientId_witness :
    swrKey "/ws/fhir2/R4" "" = none ∧
    useGrowthData (ε := Unit) "/ws/fhir2/R4" id
      (fun _ => ⟨none, none, false⟩) "" = ⟨emptySeries, false, none⟩ :=
  useGrowthData_falsy_patientId "/ws/fhir2/R4" id
    (fun _ => ⟨none, none, false⟩) rfl

/-- C4: the output sequences are exactly the in-order `filterMap`s of the
per-entry contribution functions, so each output sequence preserves the
relative order of the source entries (in particular, for entries
[A(height), B(weight), C(height)], height is [A, C] and weight is [B]). -/
theorem processEntries_order_preserving (formatDate : String → String)
    (entries : List Entry) :
    (processEntries formatDate entries).height =
      entries.filterMap (heightOf? formatDate) ∧
    (processEntries formatDate entries).weight =
      entries.filterMap (weightOf? formatDate) := by
  unfold processEntries
  rw [foldl_processResource]
  exact ⟨by simp [emptySeries], by simp [emptySeries]⟩

/-- C10: for every nonempty patient id the cache key supplied to the fetch
collaborator is exactly
`<fhirBaseUrl>/Observation?patient=<patientId>&code=height,weight`, and the
`null` sentinel is supplied instead when the id is empty. -/
theorem swrKey_spec (fhirBaseUrl patientUuid : String) :
    (patientUuid ≠ "" → swrKey fhirBaseUrl patientUuid =
      some (fhirBaseUrl ++ "/Observation?patient=" ++ patientUuid ++
        "&code=height,weight")) ∧
    (patientUuid = "" → swrKey fhirBaseUrl patientUuid = none) := by
  constructor
  · intro h
    simp [swrKey, apiUrl, h]
  · intro h
    simp [swrKey, h]

/-- Witness for C10 at a concrete base URL and at both kinds of id. -/
theorem swrKey_spec_witness :
    swrKey "/ws/fhir2/R4" "123" =
      some "/ws/fhir2/R4/Observation?patient=123&code=height,weight" ∧
    swrKey "/ws/fhir2/R4" "" = none :=
  ⟨(swrKey_spec "/ws/fhir2/R4" "123").1 (by decide),
   (swrKey_spec "/ws/fhir2/R4" "").2 rfl⟩

/-- C2: a valid entry is routed by the lowercase-normalised code of its first
coding entry — exactly `"height"` appends its measurement to the height
sequence, exactly `"weight"` to the weight sequence, and any other or absent
code to neither; and that routing code is precisely the first coding entry's
code field mapped through lowercasing. -/
theorem processResource_classification (formatDate : String → String)
    (gd : GrowthSeries) (e : Entry) (m : Measurement)
    (hm : obsMeasurement? formatDate e.resource = some m) :
    getCode e.resource =
      ((((e.resource.code.bind CodeableConcept.coding).bind
        List.head?).bind Coding.code).map jsToLowerCase) ∧
    (getCode e.resource = some "height" →
      processResource formatDate gd e = ⟨gd.height ++ [m], gd.weight⟩) ∧
    (getCode e.resource = some "weight" →
      processResource formatDate gd e = ⟨gd.height, gd.weight ++ [m]⟩) ∧
    (getCode e.resource ≠ some "height" →
      getCode e.resource ≠ some "weight" →
      processResource formatDate gd e = gd) := by
  refine ⟨rfl, ?_, ?_, ?_⟩
  · intro hh
    simp [processResource, hm, hh]
  · intro hw
    by_cases hh : getCode e.resource = some "height"
    · rw [hh] at hw
      simp at hw
    · simp [processResource, hm, hh, hw]
  · intro hh hw
    simp [processResource, hm, hh, hw]

/-- Witness for C2: a valid entry whose first coding code is `"Height"`
(mixed case) is appended to the height sequence. -/
theorem processResource_classification_witness :
    obsMeasurement? id
      (Observation.mk (some "2024-01-01") (some ⟨some 70, some "cm"⟩)
        (some ⟨some [⟨some "Height"⟩]⟩)) = some ⟨"2024-01-01", 70, "cm"⟩ ∧
    processResource id emptySeries
      ⟨Observation.mk (some "2024-01-01") (some ⟨some 70, some "cm"⟩)
        (some ⟨some [⟨some "Height"⟩]⟩)⟩ =
      ⟨[⟨"2024-01-01", 70, "cm"⟩], []⟩ :=
  ⟨by decide,
   (processResource_classification id emptySeries
      ⟨Observation.mk (some "2024-01-01") (some ⟨some 70, some "cm"⟩)
        (some ⟨some [⟨some "Height"⟩]⟩)⟩
      ⟨"2024-01-01", 70, "cm"⟩ (by decide)).2.1 (by decide)⟩

/-- C3: an entry missing `effectiveDateTime`, `valueQuantity.value` or
`valueQuantity.unit` contributes no measurement, and deleting it from the
entry list leaves the result unchanged — the surrounding entries are still
processed.  (Every produced `Measurement` has all three fields populated by
construction of the `Measurement` type.) -/
theorem processEntries_skips_invalid (formatDate : String → String)
    (e : Entry)
    (hmiss : e.resource.effectiveDateTime = none ∨
      e.resource.valueQuantity.bind Quantity.value = none ∨
      e.resource.valueQuantity.bind Quantity.unit = none)
    (before after : List Entry) :
    obsMeasurement? formatDate e.resource = none ∧
    processEntries formatDate (before ++ e :: after) =
      processEntries formatDate (before ++ after) := by
  have hnone : obsMeasurement? formatDate e.resource = none := by
    obtain ⟨⟨dt?, vq?, c⟩⟩ := e
    unfold obsMeasurement?
    rcases dt? with _ | dt
    · rfl
    · rcases vq? with _ | ⟨val?, un?⟩
      · rfl
      · rcases val? with _ | v
        · rfl
        · rcases un? with _ | u
          · rfl
          · simp [Option.bind] at hmiss
  refine ⟨hnone, ?_⟩
  have hskip : ∀ gd, processResource formatDate gd e = gd := by
    intro gd
    simp [processResource, hnone]
  unfold processEntries
  rw [List.foldl_append, List.foldl_append, List.foldl_cons, hskip]

/-- Witness for C3: an entry with a date but no `valueQuantity.value` is
skipped while its neighbours are processed. -/
theorem processEntries_skips_invalid_witness :
    ((Entry.mk (Observation.mk (some "2024-01-01")
        (some ⟨none, some "cm"⟩) (some ⟨some [⟨some "height"⟩]⟩))).resource.effectiveDateTime = none ∨
      (Entry.mk (Observation.mk (some "2024-01-01")
        (some ⟨none, some "cm"⟩) (some ⟨some [⟨some "height"⟩]⟩))).resource.valueQuantity.bind Quantity.value = none ∨
      (Entry.mk (Observation.mk (some "2024-01-01")
        (some ⟨none, some "cm"⟩) (some ⟨some [⟨some "height"⟩]⟩))).resource.valueQuantity.bind Quantity.unit = none) ∧
    obsMeasurement? id (Observation.mk (some "2024-01-01")
      (some ⟨none, some "cm"⟩) (some ⟨some [⟨some "height"⟩]⟩)) = none ∧
    processEntries id
      [⟨Observation.mk (some "2024-01-02") (some ⟨some 71, some "cm"⟩)
          (some ⟨some [⟨some "height"⟩]⟩)⟩,
       ⟨Observation.mk (some "2024-01-01") (some ⟨none, some "cm"⟩)
          (some ⟨some [⟨some "height"⟩]⟩)⟩,
       ⟨Observation.mk (some "2024-01-03") (some ⟨some 8, some "kg"⟩)
          (some ⟨some [⟨some "weight"⟩]⟩)⟩] =
    processEntries id
      [⟨Observation.mk (some "2024-01-02") (some ⟨some 71, some "cm"⟩)
          (some ⟨some [⟨some "height"⟩]⟩)⟩,
       ⟨Observation.mk (some "2024-01-03") (some ⟨some 8, some "kg"⟩)
          (some ⟨some [⟨some "weight"⟩]⟩)⟩] := by
  refine ⟨Or.inr (Or.inl (by decide)), ?_⟩
  have h := processEntries_skips_invalid id
    ⟨Observation.mk (some "2024-01-01") (some ⟨none, some "cm"⟩)
      (some ⟨some [⟨some "height"⟩]⟩)⟩
    (Or.inr (Or.inl (by decide)))
    [⟨Observation.mk (some "2024-01-02") (some ⟨some 71, some "cm"⟩)
        (some ⟨some [⟨some "height"⟩]⟩)⟩]
    [⟨Observation.mk (some "2024-01-03") (some ⟨some 8, some "kg"⟩)
        (some ⟨some [⟨some "weight"⟩]⟩)⟩]
  exact h

/-- C5: an entry whose fields are all present but whose `valueQuantity.value`
is the number 0, or whose `valueQuantity.unit` is the empty string, produces
no measurement: the guard tests JavaScript truthiness, not presence, so a
legitimate zero reading is silently dropped. -/
theorem obsMeasurement_drops_zero_value (formatDate : String → String)
    (gd : GrowthSeries) (e : Entry) (dt : String) (vq : Quantity)
    (hdt : e.resource.effectiveDateTime = some dt)
    (hvq : e.resource.valueQuantity = some vq)
    (hfalsy : vq.value = some 0 ∨ vq.unit = some "") :
    obsMeasurement? formatDate e.resource = none ∧
    processResource formatDate gd e = gd := by
  have hnone : obsMeasurement? formatDate e.resource = none := by
    obtain ⟨val?, un?⟩ := vq
    unfold obsMeasurement?
    rw [hdt, hvq]
    rcases val? with _ | v
    · rfl
    · rcases un? with _ | u
      · rfl
      · rcases hfalsy with h | h <;> simp at h
        · simp [h]
        · simp [h]
  exact ⟨hnone, by simp [processResource, hnone]⟩

/-- Witness for C5: a fully-populated entry with value 0 is dropped. -/
theorem obsMeasurement_drops_zero_value_witness :
    (Entry.mk (Observation.mk (some "2024-01-01") (some ⟨some 0, some "cm"⟩)
        (some ⟨some [⟨some "height"⟩]⟩))).resource.effectiveDateTime =
      some "2024-01-01" ∧
    obsMeasurement? id (Observation.mk (some "2024-01-01")
      (some ⟨some 0, some "cm"⟩) (some ⟨some [⟨some "height"⟩]⟩)) = none ∧
    processResource id emptySeries
      ⟨Observation.mk (some "2024-01-01") (some ⟨some 0, some "cm"⟩)
        (some ⟨some [⟨some "height"⟩]⟩)⟩ = emptySeries := by
  refine ⟨rfl, ?_⟩
  exact obsMeasurement_drops_zero_value id emptySeries
    ⟨Observation.mk (some "2024-01-01") (some ⟨some 0, some "cm"⟩)
      (some ⟨some [⟨some "height"⟩]⟩)⟩
    "2024-01-01" ⟨some 0, some "cm"⟩ rfl rfl (Or.inl rfl)

/-- C6: when the fetch result lacks the expected wrapper — the outer `data`
is absent, or the inner `data` array is absent — the hook (a total function,
so it cannot throw) returns empty height and weight sequences. -/
theorem useGrowthData_malformed_payload {ε : Type} (fhirBaseUrl : String)
    (formatDate : String → String) (swr : Option String → SWRState ε)
    (patientUuid : String)
    (hdata : (swr (swrKey fhirBaseUrl patientUuid)).data = none ∨
      (swr (swrKey fhirBaseUrl patientUuid)).data = some ⟨none⟩) :
    (useGrowthData fhirBaseUrl formatDate swr patientUuid).growthData =
      emptySeries := by
  unfold useGrowthData
  rcases hdata with h | h <;> simp [h]

/-- Witness for C6 at a collaborator whose payload has no inner array. -/
theorem useGrowthData_malformed_payload_witness :
    (useGrowthData (ε := Unit) "/fhir" id
      (fun _ => ⟨some ⟨none⟩, none, false⟩) "123").growthData = emptySeries :=
  useGrowthData_malformed_payload "/fhir" id
    (fun _ => ⟨some ⟨none⟩, none, false⟩) "123" (Or.inr rfl)

/-- C7: the hook returns the collaborator's error object unchanged in its
`error` field, and when the collaborator supplies no data alongside the error
(or while loading) the returned `growthData` is the well-formed empty
series. -/
theorem useGrowthData_error_passthrough {ε : Type} (fhirBaseUrl : String)
    (formatDate : String → String) (swr : Option String → SWRState ε)
    (patientUuid : String) (err : ε)
    (herr : (swr (swrKey fhirBaseUrl patientUuid)).error = some err) :
    (useGrowthData fhirBaseUrl formatDate swr patientUuid).error = some err ∧
    ((swr (swrKey fhirBaseUrl patientUuid)).data = none →
      (useGrowthData fhirBaseUrl formatDate swr patientUuid).growthData =
        emptySeries) := by
  constructor
  · simp [useGrowthData, herr]
  · intro h
    simp [useGrowthData, h]

/-- Witness for C7 at a collaborator reporting a concrete error. -/
theorem useGrowthData_error_passthrough_witness :
    (useGrowthData "/fhir" id
      (fun _ => (⟨none, some "HTTP 500", true⟩ : SWRState String)) "123").error =
      some "HTTP 500" ∧
    (useGrowthData "/fhir" id
      (fun _ => (⟨none, some "HTTP 500", true⟩ : SWRState String))
      "123").growthData = emptySeries := by
  have h := useGrowthData_error_passthrough "/fhir" id
    (fun _ => (⟨none, some "HTTP 500", true⟩ : SWRState String)) "123"
    "HTTP 500" rfl
  exact ⟨h.1, h.2 rfl⟩

/-- C8: the hook is a deterministic function of the patient id and of the
collaborator's response at the derived key — two invocations against
collaborators that agree at that key return structurally equal results
(in particular structurally equal `GrowthSeries`). -/
theorem useGrowthData_deterministic {ε : Type} (fhirBaseUrl : String)
    (formatDate : String → String)
    (swr1 swr2 : Option String → SWRState ε) (patientUuid : String)
    (hsame : swr1 (swrKey fhirBaseUrl patientUuid) =
      swr2 (swrKey fhirBaseUrl patientUuid)) :
    useGrowthData fhirBaseUrl formatDate swr1 patientUuid =
      useGrowthData fhirBaseUrl formatDate swr2 patientUuid := by
  unfold useGrowthData
  rw [hsame]

/-- Witness for C8 at two concrete collaborators agreeing at the key. -/
theorem useGrowthData_deterministic_witness :
    useGrowthData (ε := Unit) "/fhir" id
      (fun _ => ⟨some ⟨some []⟩, none, false⟩) "123" =
    useGrowthData (ε := Unit) "/fhir" id
      (fun k => if k = none then ⟨none, none, false⟩
        else ⟨some ⟨some []⟩, none, false⟩) "123" :=
  useGrowthData_deterministic "/fhir" id
    (fun _ => ⟨some ⟨some []⟩, none, false⟩)
    (fun k => if k = none then ⟨none, none, false⟩
      else ⟨some ⟨some []⟩, none, false⟩)
    "123" (by decide)

/-- C9: for patient id `"123"` and a response holding exactly one entry with
`effectiveDateTime = "2024-01-01"`, `valueQuantity = { value: 70, unit: "cm" }`
and first coding code `"height"`, the hook returns
`height = [{ date: "1/1/2024", value: 70, unit: "cm" }]` and `weight = []`
— given a date formatter (locale and time zone are environmental) rendering
`"2024-01-01"` as `"1/1/2024"`. -/
theorem useGrowthData_scenario_123 {ε : Type} (fhirBaseUrl : String)
    (formatDate : String → String)
    (swr : Option String → SWRState ε)
    (hfd : formatDate "2024-01-01" = "1/1/2024")
    (hresp : swr (some (apiUrl fhirBaseUrl "123")) =
      ⟨some ⟨some [⟨Observation.mk (some "2024-01-01")
        (some ⟨some 70, some "cm"⟩)
        (some ⟨some [⟨some "height"⟩]⟩)⟩]⟩, none, false⟩) :
    (useGrowthData fhirBaseUrl formatDate swr "123").growthData =
      ⟨[⟨"1/1/2024", 70, "cm"⟩], []⟩ := by
  have hkey : swrKey fhirBaseUrl "123" = some (apiUrl fhirBaseUrl "123") := by
    simp [swrKey]
  unfold useGrowthData
  rw [hkey, hresp]
  simp only
  unfold processEntries
  rw [foldl_processResource]
  have hobs : obsMeasurement? formatDate
      (Observation.mk (some "2024-01-01") (some ⟨some 70, some "cm"⟩)
        (some ⟨some [⟨some "height"⟩]⟩)) =
      some ⟨formatDate "2024-01-01", 70, "cm"⟩ := by
    unfold obsMeasurement?
    simp
  rw [hfd] at hobs
  have hcode : getCode (Observation.mk (some "2024-01-01")
      (some ⟨some 70, some "cm"⟩) (some ⟨some [⟨some "height"⟩]⟩)) =
      some "height" := by decide
  simp [emptySeries, heightOf?, weightOf?, hobs, hcode]

/-- Witness for C9 at a concrete formatter and collaborator. -/
theorem useGrowthData_scenario_123_witness :
    (useGrowthData (ε := Unit) "/fhir"
      (fun _ => "1/1/2024")
      (fun k => if k = some (apiUrl "/fhir" "123") then
          ⟨some ⟨some [⟨Observation.mk (some "2024-01-01")
            (some ⟨some 70, some "cm"⟩)
            (some ⟨some [⟨some "height"⟩]⟩)⟩]⟩, none, false⟩
        else ⟨none, none, false⟩)
      "123").growthData = ⟨[⟨"1/1/2024", 70, "cm"⟩], []⟩ :=
  useGrowthData_scenario_123 "/fhir" (fun _ => "1/1/2024")
    (fun k => if k = some (apiUrl "/fhir" "123") then
        ⟨some ⟨some [⟨Observation.mk (some "2024-01-01")
          (some ⟨some 70, some "cm"⟩)
          (some ⟨some [⟨some "height"⟩]⟩)⟩]⟩, none, false⟩
      else ⟨none, none, false⟩)
    rfl (by decide)

end GrowthChart
